import Mathlib

/-!
Verification of the Minuet governor module (minuet-firmware).

This file is a shallow embedding of the governor pipeline found in the
repository's governor module: sensor reading, signal conditioning
(clamp + optional low-pass filter), the three environmental controllers
(thermal, CO2, RH), the combiner, and the override engine, together with
theorems about the spec's claims.

Modelling conventions:
- C++ `float` values are embedded as rationals.  Where the code can observe
  non-finiteness (`std::isfinite`), a value is modelled as `FloatC`: a
  finiteness flag plus the rational value used when the number is finite
  (NaN/Inf carry no usable numeric value in the model).
- `std::pow` is modelled abstractly by a `PowModel`: any function together
  with properties that real exponentiation satisfies on the domain the
  governor uses it on (base in [0,1], positive exponent).  Every theorem is
  proved for an arbitrary `PowModel`, hence in particular for the real
  `std::pow`.
- The C++ global sensor pointers and the runtime toggle globals are passed
  explicitly; the mutable `GovernorState` global is threaded through as
  explicit state.
- `ESP_LOGx` diagnostics and the ESPHome telemetry publish inside
  `apply_overrides` are I/O only and do not affect any returned field; they
  are omitted from the embedding.
-/

namespace Minuet
namespace Governor

/-- `ClimateAction`: the thermostat action consumed by the governor
(`CLIMATE_ACTION_OFF` = no demand, `CLIMATE_ACTION_COOLING` = cooling demand). -/
inductive ClimateAction where
  | OFF
  | COOLING
deriving DecidableEq, Repr

/-- `ClimateFanMode`: the requested fan behavior. -/
inductive ClimateFanMode where
  | OFF
  | LOW
  | AUTO
  | QUIET
deriving DecidableEq, Repr

/-- `LidMode`: the requested lid behavior. -/
inductive LidMode where
  | AUTO
  | OPEN
  | CLOSED
deriving DecidableEq, Repr

/-- `ActiveController`: which controller drives the combined level. -/
inductive ActiveController where
  | OFF
  | THERMAL
  | CO2
  | RH
deriving DecidableEq, Repr

/-- A C++ `float` as the governor observes it: `finite` mirrors
`std::isfinite`, and `val` is the rational value used when finite. -/
structure FloatC where
  finite : Bool
  val : ℚ
deriving DecidableEq, Repr

-- ---------------------------------------------------------------------------
-- Tunables (values copied from the governor module's constexpr block)
-- ---------------------------------------------------------------------------

def kOutsideMarginC : ℚ := 1/2

def kSpanAutoC : ℚ := 5

def kSpanQuietC : ℚ := 5

def kGammaAuto : ℚ := 1

def kGammaQuiet : ℚ := 5/2

def kEnableCO2Control : Bool := true

def kCO2TargetPPM : ℚ := 700

def kCO2DeadbandPPM : ℚ := 75

def kCO2SpanPPM : ℚ := 500

def kCO2Gamma : ℚ := 5/4

def kEnableRHControl : Bool := true

def kRHTargetPct : ℚ := 60

def kRHDeadbandPct : ℚ := 5

def kRHGamma : ℚ := 1

def kRHSpanLoPct : ℚ := 60

def kRHSpanHiPct : ℚ := 100

def kRHOutsideMarginPct : ℚ := 5

def kAlphaTempLPF : ℚ := 1

def kAlphaRHLPF : ℚ := 1

def kAlphaCO2LPF : ℚ := 1

def kMaxLevel : ℤ := 10

def kMinOnLevel : ℤ := 1

def kMaxLevelQuiet : ℤ := 6

-- ---------------------------------------------------------------------------
-- Types
-- ---------------------------------------------------------------------------

/-- `ControlInput`: the per-tick inputs supplied by the thermostat. -/
structure ControlInput where
  ambient_temperature : FloatC
  target_temperature : FloatC
  action : ClimateAction
  fan_mode : ClimateFanMode
  lid_mode : LidMode
deriving DecidableEq, Repr

/-- `ControlOutput`: the governor's result for one tick. -/
structure ControlOutput where
  fan_speed : ℤ := 0
  lid_open : Bool := false
  active_controller : ActiveController := ActiveController.OFF
deriving DecidableEq, Repr

/-- `SensorSample`: snapshot of raw reads (pre-massage).  The C++ struct
initializes the numeric fields to NaN; a field is only ever read when its
`has_` flag is set, so the model uses 0 as the unread default. -/
structure SensorSample where
  has_Tin : Bool := false
  has_Tout : Bool := false
  has_RHi : Bool := false
  has_RHo : Bool := false
  has_CO2 : Bool := false
  Tin : ℚ := 0
  Tout : ℚ := 0
  RHi : ℚ := 0
  RHo : ℚ := 0
  CO2 : ℚ := 0
deriving DecidableEq, Repr

/-- `SensorBundle`: sanitized/filtered bundle every controller consumes. -/
structure SensorBundle where
  has_Tin : Bool := false
  has_Tout : Bool := false
  has_RHi : Bool := false
  has_RHo : Bool := false
  has_CO2 : Bool := false
  Tin : ℚ := 0
  Tout : ℚ := 0
  RHi : ℚ := 0
  RHo : ℚ := 0
  CO2 : ℚ := 0
  Tin_f : ℚ := 0
  RHi_f : ℚ := 0
  CO2_f : ℚ := 0
deriving DecidableEq, Repr

/-- `Determination`: controller-to-arbiter result. -/
structure Determination where
  level : ℤ := 0
  lid_request : Bool := false
  active : Bool := false
deriving DecidableEq, Repr

/-- `GovernorState`: the mutable cross-tick state (hysteresis latches and
low-pass filter memory). -/
structure GovernorState where
  co2_active : Bool := false
  rh_active : Bool := false
  lpf_init_Tin : Bool := false
  lpf_init_RHi : Bool := false
  lpf_init_CO2 : Bool := false
  Tin_prev : ℚ := 0
  RHi_prev : ℚ := 0
  CO2_prev : ℚ := 0
deriving DecidableEq, Repr

/-- The environmental sensor handles wired by YAML: each is `none` when the
pointer is null or the sensor has no state, and otherwise carries the float
state (whose finiteness `sensor_valid` inspects).  The two AQI sensors exist
in the source but are never read by the governor, so they are omitted. -/
structure Sensors where
  indoor_ambient_temperature : Option FloatC := none
  indoor_relative_humidity : Option FloatC := none
  indoor_co2 : Option FloatC := none
  outdoor_ambient_temperature : Option FloatC := none
  outdoor_relative_humidity : Option FloatC := none
deriving DecidableEq, Repr

-- ---------------------------------------------------------------------------
-- Helpers
-- ---------------------------------------------------------------------------

/-- `sensor_valid`: the sensor exists, has a state, and the state is finite. -/
def sensor_valid : Option FloatC → Bool
  | none => false
  | some f => f.finite

/-- The numeric state of a sensor slot (only read after `sensor_valid`). -/
def sensor_state : Option FloatC → ℚ
  | none => 0
  | some f => f.val

/-- `clampf(x, lo, hi) = std::min(std::max(x, lo), hi)`. -/
def clampf (x lo hi : ℚ) : ℚ := min (max x lo) hi

/-- `std::clamp(v, lo, hi)` on integers (callers always satisfy `lo ≤ hi`). -/
def clampi (v lo hi : ℤ) : ℤ := if v < lo then lo else if hi < v then hi else v

/-- `lpf_step`: one-pole low-pass step, `alpha = 1` is passthrough. -/
def lpf_step (x prev alpha : ℚ) : ℚ := alpha * x + (1 - alpha) * prev

/-- An abstract model of `std::pow` on the domain the governor uses:
any function satisfying these (true) facts about real exponentiation
`x ^ g` for base `x ∈ [0,1]` and exponent `g > 0`. -/
structure PowModel where
  toFun : ℚ → ℚ → ℚ
  zero_rpow : ∀ g : ℚ, 0 < g → toFun 0 g = 0
  rpow_nonneg : ∀ x g : ℚ, 0 ≤ x → 0 ≤ toFun x g
  rpow_anti : ∀ x g1 g2 : ℚ, 0 ≤ x → x ≤ 1 → 0 < g1 → g1 ≤ g2 →
    toFun x g2 ≤ toFun x g1

/-- A concrete computable inhabitant of `PowModel`, used to instantiate
universally quantified theorems at concrete inputs. -/
def powDemo : PowModel where
  toFun x _ := if x ≤ 0 then 0 else min x 1
  zero_rpow := by
    intro g _
    norm_num
  rpow_nonneg := by
    intro x g hx
    dsimp only
    split
    · exact le_refl 0
    · exact le_min hx (by norm_num)
  rpow_anti := by
    intro x g1 g2 _ _ _ _
    exact le_refl _

-- ---------------------------------------------------------------------------
-- (1) Read sensors -> SensorSample
-- ---------------------------------------------------------------------------

/-- `read_sensors`: each field is populated exactly when the corresponding
sensor is valid (exists, has state, state finite). -/
def read_sensors (env : Sensors) : SensorSample :=
  { has_Tin := sensor_valid env.indoor_ambient_temperature
    Tin := if sensor_valid env.indoor_ambient_temperature then
        sensor_state env.indoor_ambient_temperature else 0
    has_Tout := sensor_valid env.outdoor_ambient_temperature
    Tout := if sensor_valid env.outdoor_ambient_temperature then
        sensor_state env.outdoor_ambient_temperature else 0
    has_RHi := sensor_valid env.indoor_relative_humidity
    RHi := if sensor_valid env.indoor_relative_humidity then
        sensor_state env.indoor_relative_humidity else 0
    has_RHo := sensor_valid env.outdoor_relative_humidity
    RHo := if sensor_valid env.outdoor_relative_humidity then
        sensor_state env.outdoor_relative_humidity else 0
    has_CO2 := sensor_valid env.indoor_co2
    CO2 := if sensor_valid env.indoor_co2 then
        sensor_state env.indoor_co2 else 0 }

-- ---------------------------------------------------------------------------
-- (2) Massage + bundle (clamp + optional LPF); mutates the LPF state
-- ---------------------------------------------------------------------------

/-- `massage_bundle`: clamps each present reading to its physical range
(temp [-40,85] °C, RH [0,100] %, CO2 [0,5000] ppm) and runs the optional
one-pole LPF, seeding each filter with its first sample.  Returns the bundle
together with the updated `GovernorState` (the C++ code mutates the global
`g_state`). -/
def massage_bundle (s : SensorSample) (st0 : GovernorState) :
    SensorBundle × GovernorState :=
  let b0 : SensorBundle :=
    { has_Tin := s.has_Tin
      Tin := if s.has_Tin then clampf s.Tin (-40) 85 else 0
      has_Tout := s.has_Tout
      Tout := if s.has_Tout then clampf s.Tout (-40) 85 else 0
      has_RHi := s.has_RHi
      RHi := if s.has_RHi then clampf s.RHi 0 100 else 0
      has_RHo := s.has_RHo
      RHo := if s.has_RHo then clampf s.RHo 0 100 else 0
      has_CO2 := s.has_CO2
      CO2 := if s.has_CO2 then clampf s.CO2 0 5000 else 0 }
  -- LPF for Tin
  let st1 :=
    if b0.has_Tin then
      (if st0.lpf_init_Tin then st0
       else { st0 with Tin_prev := b0.Tin, lpf_init_Tin := true })
    else st0
  let b1 :=
    if b0.has_Tin then { b0 with Tin_f := lpf_step b0.Tin st1.Tin_prev kAlphaTempLPF }
    else b0
  let st2 := if b0.has_Tin then { st1 with Tin_prev := b1.Tin_f } else st1
  -- LPF for RHi
  let st3 :=
    if b1.has_RHi then
      (if st2.lpf_init_RHi then st2
       else { st2 with RHi_prev := b1.RHi, lpf_init_RHi := true })
    else st2
  let b2 :=
    if b1.has_RHi then { b1 with RHi_f := lpf_step b1.RHi st3.RHi_prev kAlphaRHLPF }
    else b1
  let st4 := if b1.has_RHi then { st3 with RHi_prev := b2.RHi_f } else st3
  -- LPF for CO2
  let st5 :=
    if b2.has_CO2 then
      (if st4.lpf_init_CO2 then st4
       else { st4 with CO2_prev := b2.CO2, lpf_init_CO2 := true })
    else st4
  let b3 :=
    if b2.has_CO2 then { b2 with CO2_f := lpf_step b2.CO2 st5.CO2_prev kAlphaCO2LPF }
    else b2
  let st6 := if b2.has_CO2 then { st5 with CO2_prev := b3.CO2_f } else st5
  (b3, st6)

-- ---------------------------------------------------------------------------
-- (3) Controllers
-- ---------------------------------------------------------------------------

/-- `determine_thermal`: runs only on cooling demand with an indoor
temperature available and a finite setpoint; maps the error above the
outdoor-aware target floor through a gamma-shaped ramp. -/
def determine_thermal (P : PowModel) (input : ControlInput) (b : SensorBundle) :
    Determination :=
  if input.action = ClimateAction.COOLING then
    if b.has_Tin then
      if input.target_temperature.finite then
        let Tin := b.Tin_f
        let Tset := input.target_temperature.val
        let has_out := b.has_Tout
        let Tout := if has_out then b.Tout else 0
        let target_floor := if has_out then max Tset (Tout + kOutsideMarginC) else Tset
        let error := Tin - target_floor
        let quiet := input.fan_mode = ClimateFanMode.QUIET
        let span := if quiet then kSpanQuietC else kSpanAutoC
        let gamma := if quiet then kGammaQuiet else kGammaAuto
        let drive := clampf (error / span) 0 1
        let level_f := (kMaxLevel : ℚ) * P.toFun drive gamma
        let level := Int.ceil level_f
        { level := level, active := decide (0 < level), lid_request := decide (0 < level) }
      else {}
    else {}
  else {}

/-- The CO2 hysteresis transition statement of `determine_co2`:
`if (!st.co2_active && co2 >= target_hi) st.co2_active = true;
 else if (st.co2_active && co2 <= target_lo) st.co2_active = false;`. -/
def co2_latch_next (active : Bool) (co2 : ℚ) : Bool :=
  if ¬active ∧ kCO2TargetPPM + kCO2DeadbandPPM ≤ co2 then true
  else if active ∧ co2 ≤ kCO2TargetPPM - kCO2DeadbandPPM then false
  else active

/-- `determine_co2`: hysteresis-latched CO2 controller.  Takes the runtime
toggle `g_enable_co2_control` explicitly; returns the determination and the
updated latch state. -/
def determine_co2 (P : PowModel) (g_enable_co2_control : Bool)
    (b : SensorBundle) (st : GovernorState) : Determination × GovernorState :=
  if ¬(kEnableCO2Control ∧ g_enable_co2_control) ∨ ¬b.has_CO2 then ({}, st)
  else
    let co2 := b.CO2_f
    let active1 : Bool := co2_latch_next st.co2_active co2
    let st1 := { st with co2_active := active1 }
    if active1 then
      let level : ℤ :=
        if co2 ≤ kCO2TargetPPM then kMinOnLevel
        else
          let drive := clampf ((co2 - kCO2TargetPPM) / kCO2SpanPPM) 0 1
          let level_f := (kMaxLevel : ℚ) * P.toFun drive kCO2Gamma
          max kMinOnLevel (Int.ceil level_f)
      ({ level := level, active := decide (0 < level), lid_request := decide (0 < level) }, st1)
    else ({}, st1)

/-- The RH hysteresis transition statement of `determine_rh` (respecting the
outdoor gating):
`if (!st.rh_active && !outdoor_block && (RHi >= target_hi)) st.rh_active = true;
 else if (st.rh_active && (RHi <= target_lo || outdoor_block)) st.rh_active = false;`. -/
def rh_latch_next (active outdoor_block : Bool) (RHi : ℚ) : Bool :=
  if ¬active ∧ ¬outdoor_block ∧ kRHTargetPct + kRHDeadbandPct ≤ RHi then true
  else if active ∧ (RHi ≤ kRHTargetPct - kRHDeadbandPct ∨ outdoor_block) then false
  else active

/-- `determine_rh`: hysteresis-latched RH controller with outdoor-humidity
gating.  Requires both indoor and outdoor RH readings; takes the runtime
toggle explicitly; returns the determination and the updated latch state. -/
def determine_rh (P : PowModel) (g_enable_rh_control : Bool)
    (b : SensorBundle) (st : GovernorState) : Determination × GovernorState :=
  if ¬(kEnableRHControl ∧ g_enable_rh_control ∧ b.has_RHi ∧ b.has_RHo) then ({}, st)
  else
    let RHi := b.RHi_f
    let RHo := b.RHo
    let outdoor_block : Bool := decide (RHi + kRHOutsideMarginPct ≤ RHo)
    let active1 : Bool := rh_latch_next st.rh_active outdoor_block RHi
    let st1 := { st with rh_active := active1 }
    if active1 then
      let level : ℤ :=
        if RHi ≤ kRHTargetPct then kMinOnLevel
        else
          let span := kRHSpanHiPct - kRHSpanLoPct
          let drive := clampf ((RHi - kRHTargetPct) / span) 0 1
          let level_f := (kMaxLevel : ℚ) * P.toFun drive kRHGamma
          max kMinOnLevel (Int.ceil level_f)
      ({ level := level, active := decide (0 < level), lid_request := decide (0 < level) }, st1)
    else ({}, st1)

-- ---------------------------------------------------------------------------
-- (4) Combine determinations
-- ---------------------------------------------------------------------------

/-- The combiner's outputs (the C++ function returns them through reference
parameters). -/
structure CombineResult where
  level_raw : ℤ
  any_controller_active : Bool
  any_lid_request : Bool
  pre_override_active : ActiveController
deriving DecidableEq, Repr

/-- `combine`: max-selection of the three requested levels, OR of the flags,
and the sequential best-so-far scan (Thermal, then CO2, then RH, each taken
only when its level strictly exceeds the best so far).  The C++ sequential
mutation of `best`/`pre_override_active` is unfolded into per-step lets. -/
def combine (t c h : Determination) : CombineResult :=
  let level_raw := max t.level (max c.level h.level)
  let any_controller_active := t.active || c.active || h.active
  let any_lid_request := t.lid_request || c.lid_request || h.lid_request
  let best1 : ℤ := if 0 < t.level then t.level else 0
  let ac1 : ActiveController :=
    if 0 < t.level then ActiveController.THERMAL else ActiveController.OFF
  let best2 : ℤ := if best1 < c.level then c.level else best1
  let ac2 : ActiveController := if best1 < c.level then ActiveController.CO2 else ac1
  let ac3 : ActiveController := if best2 < h.level then ActiveController.RH else ac2
  { level_raw := level_raw
    any_controller_active := any_controller_active
    any_lid_request := any_lid_request
    pre_override_active := ac3 }

-- ---------------------------------------------------------------------------
-- (5) Apply inhibiting overrides
-- ---------------------------------------------------------------------------

/-- `apply_overrides`: fan-mode policy (off/low/quiet/auto with minimum-run
forcing), the final mode-appropriate clamp, the default lid policy and the
explicit lid-mode overrides.  The telemetry publish block at the top of the
C++ function only emits a log/state string and does not change the returned
fields, so it is omitted. -/
def apply_overrides (input : ControlInput) (level_raw : ℤ)
    (any_controller_active any_lid_request : Bool)
    (output0 : ControlOutput) : ControlOutput :=
  let cooling_active : Bool := decide (input.action = ClimateAction.COOLING)
  let should_force_min : Bool := cooling_active || any_controller_active
  let level : ℤ :=
    match input.fan_mode with
    | ClimateFanMode.OFF => 0
    | ClimateFanMode.LOW =>
        if should_force_min then max level_raw kMinOnLevel else 0
    | ClimateFanMode.QUIET =>
        let cap := min kMaxLevelQuiet kMaxLevel
        if should_force_min then clampi (max level_raw kMinOnLevel) kMinOnLevel cap
        else 0
    | ClimateFanMode.AUTO =>
        if should_force_min then clampi (max level_raw kMinOnLevel) kMinOnLevel kMaxLevel
        else 0
  let global_cap : ℤ :=
    if input.fan_mode = ClimateFanMode.QUIET then min kMaxLevelQuiet kMaxLevel
    else kMaxLevel
  let level2 := clampi level 0 global_cap
  let lid1 : Bool := any_lid_request
  let lid2 : Bool :=
    match input.lid_mode with
    | LidMode.OPEN => true
    | LidMode.CLOSED => false
    | LidMode.AUTO => lid1
  { output0 with lid_open := lid2, fan_speed := level2 }

-- ---------------------------------------------------------------------------
-- (6) Main control entry
-- ---------------------------------------------------------------------------

/-- `update`: one governor tick.  Reads the sensors, conditions them,
runs the three controllers, combines, applies overrides.  The C++ function
mutates the global `g_state`; here the state is threaded and returned. -/
def update (P : PowModel) (g_enable_co2_control g_enable_rh_control : Bool)
    (env : Sensors) (input : ControlInput) (st : GovernorState) :
    ControlOutput × GovernorState :=
  let sample := read_sensors env
  let mb := massage_bundle sample st
  let bundle := mb.1
  let st1 := mb.2
  let det_thermal := determine_thermal P input bundle
  let dc := determine_co2 P g_enable_co2_control bundle st1
  let det_co2 := dc.1
  let st2 := dc.2
  let dh := determine_rh P g_enable_rh_control bundle st2
  let det_rh := dh.1
  let st3 := dh.2
  let r := combine det_thermal det_co2 det_rh
  let output0 : ControlOutput := { active_controller := r.pre_override_active }
  let output := apply_overrides input r.level_raw r.any_controller_active
    r.any_lid_request output0
  (output, st3)

/-- Iterate the CO2 controller's state update over a sequence of conditioned
bundles (one tick each). -/
def co2Steps (P : PowModel) (g : Bool) (bs : List SensorBundle)
    (st : GovernorState) : GovernorState :=
  bs.foldl (fun s b => (determine_co2 P g b s).2) st

/-- Concrete scenario fixture: only the indoor CO2 sensor reports, with a
finite reading of 800 ppm (above `target + deadband = 775`). -/
def co2HotSensors : Sensors := { indoor_co2 := some ⟨true, 800⟩ }

/-- Concrete scenario fixture: a tick with no cooling demand, fan mode off
and the lid forced closed — its ControlOutput is all-off. -/
def allOffInput : ControlInput :=
  { ambient_temperature := ⟨true, 25⟩, target_temperature := ⟨true, 20⟩,
    action := ClimateAction.OFF, fan_mode := ClimateFanMode.OFF,
    lid_mode := LidMode.CLOSED }

-- ---------------------------------------------------------------------------
-- Helper lemmas (shared between claim theorems)
-- ---------------------------------------------------------------------------

/-- The override engine's fan level always lands in range: in `[0, 10]`,
under the quiet cap in quiet mode, and exactly `0` in off mode. -/
theorem apply_overrides_fan_bounds (input : ControlInput) (level_raw : ℤ)
    (aca alr : Bool) (o0 : ControlOutput) :
    0 ≤ (apply_overrides input level_raw aca alr o0).fan_speed ∧
    (apply_overrides input level_raw aca alr o0).fan_speed ≤ kMaxLevel ∧
    (input.fan_mode = ClimateFanMode.QUIET →
      (apply_overrides input level_raw aca alr o0).fan_speed ≤ kMaxLevelQuiet) ∧
    (input.fan_mode = ClimateFanMode.OFF →
      (apply_overrides input level_raw aca alr o0).fan_speed = 0) := by
  rcases input with ⟨a, ts, ac, fm, lm⟩
  cases fm <;>
    simp [apply_overrides, clampi, kMinOnLevel, kMaxLevel, kMaxLevelQuiet] <;>
    split_ifs <;> omega

/-- In auto mode, when cooling is demanded or a controller is active, the
override engine forces the fan level into `[kMinOnLevel, kMaxLevel]`. -/
theorem apply_overrides_auto_min (input : ControlInput) (level_raw : ℤ)
    (aca alr : Bool) (o0 : ControlOutput)
    (hm : input.fan_mode = ClimateFanMode.AUTO)
    (hd : input.action = ClimateAction.COOLING ∨ aca = true) :
    kMinOnLevel ≤ (apply_overrides input level_raw aca alr o0).fan_speed ∧
    (apply_overrides input level_raw aca alr o0).fan_speed ≤ kMaxLevel := by
  rcases input with ⟨a, ts, ac, fm, lm⟩
  subst hm
  simp only [ControlInput.action] at hd
  have hsf : (decide (ac = ClimateAction.COOLING) || aca) = true := by
    rcases hd with hd | hd
    · subst hd; simp
    · subst hd; simp
  simp [apply_overrides, clampi, hsf, kMinOnLevel, kMaxLevel]
  split_ifs <;> omega

/-- The override engine's lid decision: force-open beats everything, then
force-closed, and auto passes `any_lid_request` through. -/
theorem apply_overrides_lid (input : ControlInput) (level_raw : ℤ)
    (aca alr : Bool) (o0 : ControlOutput) :
    (apply_overrides input level_raw aca alr o0).lid_open =
      (match input.lid_mode with
       | LidMode.OPEN => true
       | LidMode.CLOSED => false
       | LidMode.AUTO => alr) := by
  rcases input with ⟨a, ts, ac, fm, lm⟩
  cases lm <;> cases fm <;> simp [apply_overrides]

-- ---------------------------------------------------------------------------
-- Claim theorems
-- ---------------------------------------------------------------------------

/-- The fan speed returned by a whole `update` tick is in `[0, 10]`, under
the quiet cap in quiet mode, and 0 in off mode (lifting of
`apply_overrides_fan_bounds` through the pipeline). -/
theorem update_fan_bounds (P : PowModel) (gco2 grh : Bool)
    (env : Sensors) (input : ControlInput) (st : GovernorState) :
    0 ≤ (update P gco2 grh env input st).1.fan_speed ∧
    (update P gco2 grh env input st).1.fan_speed ≤ 10 ∧
    (input.fan_mode = ClimateFanMode.QUIET →
      (update P gco2 grh env input st).1.fan_speed ≤ 6) ∧
    (input.fan_mode = ClimateFanMode.OFF →
      (update P gco2 grh env input st).1.fan_speed = 0) := by
  have h := apply_overrides_fan_bounds input
    (combine (determine_thermal P input (massage_bundle (read_sensors env) st).1)
      (determine_co2 P gco2 (massage_bundle (read_sensors env) st).1
        (massage_bundle (read_sensors env) st).2).1
      (determine_rh P grh (massage_bundle (read_sensors env) st).1
        (determine_co2 P gco2 (massage_bundle (read_sensors env) st).1
          (massage_bundle (read_sensors env) st).2).2).1).level_raw
    (combine (determine_thermal P input (massage_bundle (read_sensors env) st).1)
      (determine_co2 P gco2 (massage_bundle (read_sensors env) st).1
        (massage_bundle (read_sensors env) st).2).1
      (determine_rh P grh (massage_bundle (read_sensors env) st).1
        (determine_co2 P gco2 (massage_bundle (read_sensors env) st).1
          (massage_bundle (read_sensors env) st).2).2).1).any_controller_active
    (combine (determine_thermal P input (massage_bundle (read_sensors env) st).1)
      (determine_co2 P gco2 (massage_bundle (read_sensors env) st).1
        (massage_bundle (read_sensors env) st).2).1
      (determine_rh P grh (massage_bundle (read_sensors env) st).1
        (determine_co2 P gco2 (massage_bundle (read_sensors env) st).1
          (massage_bundle (read_sensors env) st).2).2).1).any_lid_request
    { active_controller :=
        (combine (determine_thermal P input (massage_bundle (read_sensors env) st).1)
          (determine_co2 P gco2 (massage_bundle (read_sensors env) st).1
            (massage_bundle (read_sensors env) st).2).1
          (determine_rh P grh (massage_bundle (read_sensors env) st).1
            (determine_co2 P gco2 (massage_bundle (read_sensors env) st).1
              (massage_bundle (read_sensors env) st).2).2).1).pre_override_active }
  simpa [update, kMaxLevel, kMaxLevelQuiet] using h

/-- C1: for every ControlInput, sensor environment and governor state, the
`fan_speed` of the ControlOutput returned by `update` lies in `[0, 10]`,
never exceeds the quiet cap `6` when the fan mode is quiet, and equals `0`
whenever the fan mode is off, regardless of the levels requested by the
thermal, CO2 and RH controllers. -/
theorem update_fan_speed_in_range (P : PowModel) (gco2 grh : Bool)
    (env : Sensors) (input : ControlInput) (st : GovernorState) :
    0 ≤ (update P gco2 grh env input st).1.fan_speed ∧
    (update P gco2 grh env input st).1.fan_speed ≤ 10 ∧
    (input.fan_mode = ClimateFanMode.QUIET →
      (update P gco2 grh env input st).1.fan_speed ≤ 6) ∧
    (input.fan_mode = ClimateFanMode.OFF →
      (update P gco2 grh env input st).1.fan_speed = 0) :=
  update_fan_bounds P gco2 grh env input st

/-- C3: the combiner returns the max of the three levels, ORs the active and
lid-request flags, and picks the reported controller by scanning Thermal,
CO2, RH in order, selecting only on a strict improvement — so ties go to the
earlier controller and the report is Off exactly when no level is positive.
`combine` is a plain function of the three determinations (its type reads no
`GovernorState`), so it touches no persistent state. -/
theorem combine_spec (t c h : Determination) :
    (combine t c h).level_raw = max t.level (max c.level h.level) ∧
    (combine t c h).any_controller_active = (t.active || c.active || h.active) ∧
    (combine t c h).any_lid_request = (t.lid_request || c.lid_request || h.lid_request) ∧
    ((combine t c h).pre_override_active = ActiveController.THERMAL ↔
      0 < t.level ∧ c.level ≤ t.level ∧ h.level ≤ t.level) ∧
    ((combine t c h).pre_override_active = ActiveController.CO2 ↔
      0 < c.level ∧ t.level < c.level ∧ h.level ≤ c.level) ∧
    ((combine t c h).pre_override_active = ActiveController.RH ↔
      0 < h.level ∧ t.level < h.level ∧ c.level < h.level) ∧
    ((combine t c h).pre_override_active = ActiveController.OFF ↔
      t.level ≤ 0 ∧ c.level ≤ 0 ∧ h.level ≤ 0) := by
  unfold combine
  refine ⟨rfl, rfl, rfl, ?_, ?_, ?_, ?_⟩ <;>
    (dsimp only []; split_ifs <;> simp_all <;> omega)

/-- C4: in auto fan mode, whenever cooling is demanded or any controller is
active, the final fan speed is at least the minimum-run level 1 and at most
the global max 10 — never 0 while a controller is active, even when the raw
combined level is 0. -/
theorem auto_minimum_run (input : ControlInput) (level_raw : ℤ)
    (aca alr : Bool) (o0 : ControlOutput)
    (hm : input.fan_mode = ClimateFanMode.AUTO)
    (hd : input.action = ClimateAction.COOLING ∨ aca = true) :
    1 ≤ (apply_overrides input level_raw aca alr o0).fan_speed ∧
    (apply_overrides input level_raw aca alr o0).fan_speed ≤ 10 := by
  have h := apply_overrides_auto_min input level_raw aca alr o0 hm hd
  simpa [kMinOnLevel, kMaxLevel] using h

/-- C4 witness: fan mode auto, a controller active, raw level 0 — the final
speed is forced into [1, 10]. -/
theorem auto_minimum_run_witness :
    1 ≤ (apply_overrides
      { ambient_temperature := ⟨true, 25⟩, target_temperature := ⟨true, 20⟩,
        action := ClimateAction.OFF, fan_mode := ClimateFanMode.AUTO,
        lid_mode := LidMode.AUTO } 0 true true {}).fan_speed ∧
    (apply_overrides
      { ambient_temperature := ⟨true, 25⟩, target_temperature := ⟨true, 20⟩,
        action := ClimateAction.OFF, fan_mode := ClimateFanMode.AUTO,
        lid_mode := LidMode.AUTO } 0 true true {}).fan_speed ≤ 10 :=
  auto_minimum_run _ 0 true true {} rfl (Or.inr rfl)

/-- From inactive, the CO2 latch activates exactly at `775 = target + deadband`. -/
theorem co2_latch_next_of_inactive (x : ℚ) :
    co2_latch_next false x = true ↔ 775 ≤ x := by
  unfold co2_latch_next
  norm_num [kCO2TargetPPM, kCO2DeadbandPPM]

/-- From active, the CO2 latch deactivates exactly at `625 = target − deadband`. -/
theorem co2_latch_next_of_active (x : ℚ) :
    co2_latch_next true x = false ↔ x ≤ 625 := by
  unfold co2_latch_next
  norm_num [kCO2TargetPPM, kCO2DeadbandPPM]

/-- From inactive, the RH latch activates exactly when not blocked and
`RHi ≥ 65 = target + deadband`. -/
theorem rh_latch_next_of_inactive (blk : Bool) (x : ℚ) :
    rh_latch_next false blk x = true ↔ (blk = false ∧ 65 ≤ x) := by
  unfold rh_latch_next
  rcases blk <;> norm_num [kRHTargetPct, kRHDeadbandPct]

/-- From active, the RH latch deactivates exactly when `RHi ≤ 55` or blocked. -/
theorem rh_latch_next_of_active (blk : Bool) (x : ℚ) :
    rh_latch_next true blk x = false ↔ (x ≤ 55 ∨ blk = true) := by
  unfold rh_latch_next
  rcases blk <;> norm_num [kRHTargetPct, kRHDeadbandPct]

/-- The state returned by one CO2 tick: the latch is stepped by
`co2_latch_next` when the controller runs, and everything else is untouched. -/
theorem determine_co2_snd (P : PowModel) (g : Bool) (b : SensorBundle)
    (st : GovernorState) :
    (determine_co2 P g b st).2 =
      (if ¬(kEnableCO2Control ∧ g) ∨ ¬b.has_CO2 then st
       else { st with co2_active := co2_latch_next st.co2_active b.CO2_f }) := by
  unfold determine_co2
  split_ifs with h1
  · rfl
  · cases hl : co2_latch_next st.co2_active b.CO2_f <;> simp [hl]

/-- The determination returned by one CO2 tick is zero whenever the
post-transition latch is inactive. -/
theorem determine_co2_fst_zero (P : PowModel) (g : Bool) (b : SensorBundle)
    (st : GovernorState)
    (h : ((determine_co2 P g b st).2).co2_active = false) :
    (determine_co2 P g b st).1 = {} := by
  rw [determine_co2_snd] at h
  unfold determine_co2
  split_ifs at h ⊢ with h1 <;> simp_all

/-- One CO2 tick never drops the latch while the filtered CO2 stays above
`target − deadband = 625` (a missing or disabled reading leaves it latched). -/
theorem determine_co2_latch_persists (P : PowModel) (g : Bool)
    (b : SensorBundle) (st : GovernorState)
    (ha : st.co2_active = true) (hco2 : b.has_CO2 = true → 625 < b.CO2_f) :
    ((determine_co2 P g b st).2).co2_active = true := by
  rw [determine_co2_snd]
  split_ifs with h1
  · exact ha
  · have hco2' : 625 < b.CO2_f := by
      apply hco2
      rcases b with ⟨hT, hTo, hR, hRo, hC, rest⟩
      simp only [not_and, not_or, not_not] at h1
      simpa using h1.2
    simp only [ha]
    cases hl : co2_latch_next true b.CO2_f
    · exact absurd ((co2_latch_next_of_active b.CO2_f).mp hl) (by linarith)
    · rfl

/-- The latch stays active across any run of ticks whose valid CO2 readings
all stay strictly above 625. -/
theorem co2Steps_latch_persists (P : PowModel) (g : Bool)
    (bs : List SensorBundle) (st : GovernorState)
    (ha : st.co2_active = true)
    (hbs : ∀ b2 ∈ bs, b2.has_CO2 = true → 625 < b2.CO2_f) :
    (co2Steps P g bs st).co2_active = true := by
  induction bs generalizing st with
  | nil => simpa [co2Steps] using ha
  | cons b rest ih =>
      have hstep := determine_co2_latch_persists P g b st ha
        (hbs b (List.mem_cons_self b rest))
      have := ih (determine_co2 P g b st).2 hstep
        (fun b2 hb2 => hbs b2 (List.mem_cons_of_mem b hb2))
      simpa [co2Steps] using this

/-- C2: with CO2 control enabled and a CO2 reading present, the latch goes
inactive→active exactly when filtered CO2 ≥ 775 and active→inactive exactly
when filtered CO2 ≤ 625; once active it survives any run of ticks whose
readings stay above 625 (the band between 625 and 775 included); and whenever
the post-transition latch is inactive the controller's Determination is zero
(level 0, not active, no lid request). -/
theorem co2_hysteresis_latch (P : PowModel) (g : Bool) (b : SensorBundle)
    (st : GovernorState) (hg : g = true) (hhas : b.has_CO2 = true) :
    (st.co2_active = false →
      (((determine_co2 P g b st).2).co2_active = true ↔ 775 ≤ b.CO2_f)) ∧
    (st.co2_active = true →
      (((determine_co2 P g b st).2).co2_active = false ↔ b.CO2_f ≤ 625)) ∧
    (((determine_co2 P g b st).2).co2_active = false →
      (determine_co2 P g b st).1 = {}) ∧
    (∀ bs : List SensorBundle, st.co2_active = true →
      (∀ b2 ∈ bs, b2.has_CO2 = true → 625 < b2.CO2_f) →
      (co2Steps P g bs st).co2_active = true) := by
  subst hg
  have hsnd : (determine_co2 P true b st).2 =
      { st with co2_active := co2_latch_next st.co2_active b.CO2_f } := by
    rw [determine_co2_snd]
    simp [kEnableCO2Control, hhas]
  refine ⟨?_, ?_, fun h => determine_co2_fst_zero P true b st h,
    fun bs ha hbs => co2Steps_latch_persists P true bs st ha hbs⟩
  · intro h
    rw [hsnd]
    simpa [h] using co2_latch_next_of_inactive b.CO2_f
  · intro h
    rw [hsnd]
    simpa [h] using co2_latch_next_of_active b.CO2_f

/-- C2 witness: with the latch inactive and filtered CO2 = 800 ≥ 775, one
tick activates the latch. -/
theorem co2_hysteresis_latch_witness :
    ((determine_co2 powDemo true
      { has_CO2 := true, CO2 := 800, CO2_f := 800 } {}).2).co2_active = true :=
  ((co2_hysteresis_latch powDemo true
      { has_CO2 := true, CO2 := 800, CO2_f := 800 } {} rfl rfl).1 rfl).mpr
    (by norm_num)

/-- One RH tick: the transition characterization and the zero determination
while inactive (hypotheses: RH control enabled and both readings present). -/
theorem rh_latch_step (P : PowModel) (g : Bool) (b : SensorBundle)
    (st : GovernorState) (hg : g = true) (hi : b.has_RHi = true)
    (ho : b.has_RHo = true) :
    (st.rh_active = false →
      (((determine_rh P g b st).2).rh_active = true ↔
        ¬(b.RHi_f + 5 ≤ b.RHo) ∧ 65 ≤ b.RHi_f)) ∧
    (st.rh_active = true →
      (((determine_rh P g b st).2).rh_active = false ↔
        (b.RHi_f ≤ 55 ∨ b.RHi_f + 5 ≤ b.RHo))) ∧
    (((determine_rh P g b st).2).rh_active = false →
      (determine_rh P g b st).1 = {}) := by
  subst hg
  have hsnd : (determine_rh P true b st).2 =
      { st with rh_active :=
          (rh_latch_next st.rh_active
            (decide (b.RHi_f + kRHOutsideMarginPct ≤ b.RHo)) b.RHi_f) } := by
    unfold determine_rh
    split_ifs with h1
    · cases hl : rh_latch_next st.rh_active
        (decide (b.RHi_f + kRHOutsideMarginPct ≤ b.RHo)) b.RHi_f <;> simp [hl]
    · simp_all [kEnableRHControl]
  have hfst : ((determine_rh P true b st).2).rh_active = false →
      (determine_rh P true b st).1 = {} := by
    intro h
    rw [hsnd] at h
    unfold determine_rh
    split_ifs <;> simp_all
  refine ⟨?_, ?_, hfst⟩
  · intro h
    rw [hsnd]
    have := rh_latch_next_of_inactive
      (decide (b.RHi_f + kRHOutsideMarginPct ≤ b.RHo)) b.RHi_f
    simp only [h] at this ⊢
    rw [this]
    simp [kRHOutsideMarginPct, decide_eq_false_iff_not]
  · intro h
    rw [hsnd]
    have := rh_latch_next_of_active
      (decide (b.RHi_f + kRHOutsideMarginPct ≤ b.RHo)) b.RHi_f
    simp only [h] at this ⊢
    rw [this]
    simp [kRHOutsideMarginPct, decide_eq_true_eq]

/-- C6: with RH control enabled and both readings present, the outdoor-block
condition holds exactly when outdoor RH ≥ indoor RH + 5; the latch activates
only when indoor RH ≥ 65 and the block does not hold, deactivates when indoor
RH ≤ 55 or the block holds; the post-transition-inactive controller returns a
zero Determination — so the block alone forces deactivation and a zero
Determination even while indoor RH is above target. -/
theorem rh_hysteresis_block (P : PowModel) (g : Bool) (b : SensorBundle)
    (st : GovernorState) (hg : g = true) (hi : b.has_RHi = true)
    (ho : b.has_RHo = true) :
    (st.rh_active = false →
      (((determine_rh P g b st).2).rh_active = true ↔
        ¬(b.RHi_f + 5 ≤ b.RHo) ∧ 65 ≤ b.RHi_f)) ∧
    (st.rh_active = true →
      (((determine_rh P g b st).2).rh_active = false ↔
        (b.RHi_f ≤ 55 ∨ b.RHi_f + 5 ≤ b.RHo))) ∧
    (st.rh_active = true → b.RHi_f + 5 ≤ b.RHo →
      ((determine_rh P g b st).2).rh_active = false ∧
      (determine_rh P g b st).1 = {}) := by
  have h := rh_latch_step P g b st hg hi ho
  refine ⟨h.1, h.2.1, fun ha hb => ?_⟩
  have hinact : ((determine_rh P g b st).2).rh_active = false :=
    (h.2.1 ha).mpr (Or.inr hb)
  exact ⟨hinact, h.2.2 hinact⟩

/-- C6 witness: outdoor RH 66 and indoor RH 60 give block = (66 ≥ 65) = true,
which alone deactivates the latch and zeroes the Determination even though
indoor RH is at the target. -/
theorem rh_hysteresis_block_witness :
    ((determine_rh powDemo true
      { has_RHi := true, has_RHo := true, RHi := 60, RHo := 66, RHi_f := 60 }
      { rh_active := true }).2).rh_active = false ∧
    (determine_rh powDemo true
      { has_RHi := true, has_RHo := true, RHi := 60, RHo := 66, RHi_f := 60 }
      { rh_active := true }).1 = {} :=
  (rh_hysteresis_block powDemo true
      { has_RHi := true, has_RHo := true, RHi := 60, RHo := 66, RHi_f := 60 }
      { rh_active := true } rfl rfl rfl).2.2 rfl (by norm_num)

/-- C7: the final `lid_open` equals true when lid mode is force-open, false
when force-closed (each regardless of `any_lid_request` and of the climate
action), and equals `any_lid_request` when lid mode is auto. -/
theorem lid_override_precedence (input : ControlInput) (level_raw : ℤ)
    (aca alr : Bool) (o0 : ControlOutput) :
    (apply_overrides input level_raw aca alr o0).lid_open =
      (match input.lid_mode with
       | LidMode.OPEN => true
       | LidMode.CLOSED => false
       | LidMode.AUTO => alr) :=
  apply_overrides_lid input level_raw aca alr o0

/-- `clampf x 0 1` is nonnegative. -/
theorem clampf_nonneg (x : ℚ) : 0 ≤ clampf x 0 1 :=
  le_min (le_max_right x 0) zero_le_one

/-- `clampf x 0 1` is at most one. -/
theorem clampf_le_one (x : ℚ) : clampf x 0 1 ≤ 1 := min_le_right _ _

/-- `clampf x 0 1 = 0` when `x ≤ 0`. -/
theorem clampf_eq_zero (x : ℚ) (h : x ≤ 0) : clampf x 0 1 = 0 := by
  unfold clampf
  rw [max_eq_right h]
  exact min_eq_left zero_le_one

/-- What `determine_thermal` computes once its three guards pass: the
outdoor-aware floor, the error over the mode span, the gamma ramp, the ceil,
and the `active`/`lid_request` flags. -/
theorem determine_thermal_eq (P : PowModel) (input : ControlInput)
    (b : SensorBundle) (ha : input.action = ClimateAction.COOLING)
    (ht : b.has_Tin = true) (hf : input.target_temperature.finite = true) :
    determine_thermal P input b =
      { level := Int.ceil ((kMaxLevel : ℚ) * P.toFun
          (clampf ((b.Tin_f -
              (if b.has_Tout then
                 max input.target_temperature.val (b.Tout + kOutsideMarginC)
               else input.target_temperature.val)) /
            (if input.fan_mode = ClimateFanMode.QUIET then kSpanQuietC
             else kSpanAutoC)) 0 1)
          (if input.fan_mode = ClimateFanMode.QUIET then kGammaQuiet
           else kGammaAuto))
        active := decide (0 < Int.ceil ((kMaxLevel : ℚ) * P.toFun
          (clampf ((b.Tin_f -
              (if b.has_Tout then
                 max input.target_temperature.val (b.Tout + kOutsideMarginC)
               else input.target_temperature.val)) /
            (if input.fan_mode = ClimateFanMode.QUIET then kSpanQuietC
             else kSpanAutoC)) 0 1)
          (if input.fan_mode = ClimateFanMode.QUIET then kGammaQuiet
           else kGammaAuto)))
        lid_request := decide (0 < Int.ceil ((kMaxLevel : ℚ) * P.toFun
          (clampf ((b.Tin_f -
              (if b.has_Tout then
                 max input.target_temperature.val (b.Tout + kOutsideMarginC)
               else input.target_temperature.val)) /
            (if input.fan_mode = ClimateFanMode.QUIET then kSpanQuietC
             else kSpanAutoC)) 0 1)
          (if input.fan_mode = ClimateFanMode.QUIET then kGammaQuiet
           else kGammaAuto))) } := by
  unfold determine_thermal
  cases hTo : b.has_Tout <;> simp [ha, ht, hf, hTo]

/-- The gammas are positive, so a nonpositive error zeroes the thermal level. -/
theorem thermal_level_zero_of_error_nonpos (P : PowModel) (input : ControlInput)
    (b : SensorBundle) (ha : input.action = ClimateAction.COOLING)
    (ht : b.has_Tin = true) (hf : input.target_temperature.finite = true)
    (he : b.Tin_f -
        (if b.has_Tout then
           max input.target_temperature.val (b.Tout + kOutsideMarginC)
         else input.target_temperature.val) ≤ 0) :
    (determine_thermal P input b).level = 0 := by
  rw [determine_thermal_eq P input b ha ht hf]
  have hspan : (0:ℚ) < (if input.fan_mode = ClimateFanMode.QUIET then kSpanQuietC
      else kSpanAutoC) := by
    split_ifs <;> norm_num [kSpanQuietC, kSpanAutoC]
  have hdiv : (b.Tin_f -
      (if b.has_Tout then
         max input.target_temperature.val (b.Tout + kOutsideMarginC)
       else input.target_temperature.val)) /
      (if input.fan_mode = ClimateFanMode.QUIET then kSpanQuietC
       else kSpanAutoC) ≤ 0 := div_nonpos_of_nonpos_of_nonneg he hspan.le
  have hgpos : (0:ℚ) < (if input.fan_mode = ClimateFanMode.QUIET then kGammaQuiet
      else kGammaAuto) := by
    split_ifs <;> norm_num [kGammaQuiet, kGammaAuto]
  simp [clampf_eq_zero _ hdiv, P.zero_rpow _ hgpos]

/-- C5: under cooling demand with an indoor reading and a finite setpoint,
the thermal controller computes `target_floor = max(setpoint, outdoor + 0.5)`
when outdoor temperature is available (the setpoint alone otherwise),
`drive = clamp(error/span, 0, 1)` on `error = filtered indoor − floor`, and
`level = ceil(MaxLevel * drive^γ)` with `γ = kGammaAuto = 1` in auto mode and
`γ = kGammaQuiet > 1` in quiet mode; `active` holds iff `level > 0` and the
lid request iff active; and a nonpositive error yields level 0 (as in the
setpoint 18 °C / outdoor 30 °C / indoor 29 °C example). -/
theorem thermal_transfer_characterization (P : PowModel) (input : ControlInput)
    (b : SensorBundle) (ha : input.action = ClimateAction.COOLING)
    (ht : b.has_Tin = true) (hf : input.target_temperature.finite = true) :
    (determine_thermal P input b).level =
      Int.ceil ((kMaxLevel : ℚ) * P.toFun
        (clampf ((b.Tin_f -
            (if b.has_Tout then
               max input.target_temperature.val (b.Tout + kOutsideMarginC)
             else input.target_temperature.val)) /
          (if input.fan_mode = ClimateFanMode.QUIET then kSpanQuietC
           else kSpanAutoC)) 0 1)
        (if input.fan_mode = ClimateFanMode.QUIET then kGammaQuiet
         else kGammaAuto)) ∧
    kGammaAuto = 1 ∧ 1 < kGammaQuiet ∧
    ((determine_thermal P input b).active = true ↔
      0 < (determine_thermal P input b).level) ∧
    (determine_thermal P input b).lid_request = (determine_thermal P input b).active ∧
    (b.Tin_f -
        (if b.has_Tout then
           max input.target_temperature.val (b.Tout + kOutsideMarginC)
         else input.target_temperature.val) ≤ 0 →
      (determine_thermal P input b).level = 0) := by
  refine ⟨?_, rfl, by norm_num [kGammaQuiet], ?_, ?_,
    thermal_level_zero_of_error_nonpos P input b ha ht hf⟩ <;>
    (rw [determine_thermal_eq P input b ha ht hf]
     try simp)

/-- C5 witness: setpoint 18 °C, outdoor 30 °C, filtered indoor 29 °C —
the target floor is 30.5, the error is negative, and the level is 0. -/
theorem thermal_transfer_characterization_witness :
    (29 : ℚ) - max 18 (30 + kOutsideMarginC) < 0 ∧
    (determine_thermal powDemo
      { ambient_temperature := ⟨true, 29⟩, target_temperature := ⟨true, 18⟩,
        action := ClimateAction.COOLING, fan_mode := ClimateFanMode.AUTO,
        lid_mode := LidMode.AUTO }
      { has_Tin := true, has_Tout := true, Tin := 29, Tout := 30,
        Tin_f := 29 }).level = 0 := by
  constructor
  · norm_num [kOutsideMarginC]
  · exact (thermal_transfer_characterization powDemo
      { ambient_temperature := ⟨true, 29⟩, target_temperature := ⟨true, 18⟩,
        action := ClimateAction.COOLING, fan_mode := ClimateFanMode.AUTO,
        lid_mode := LidMode.AUTO }
      { has_Tin := true, has_Tout := true, Tin := 29, Tout := 30,
        Tin_f := 29 } rfl rfl rfl).2.2.2.2.2
      (by norm_num [kOutsideMarginC])

/-- Massaging never invents or drops readings: the bundle's presence flags
are the sample's. -/
theorem massage_bundle_has (s : SensorSample) (st : GovernorState) :
    (massage_bundle s st).1.has_Tin = s.has_Tin ∧
    (massage_bundle s st).1.has_Tout = s.has_Tout ∧
    (massage_bundle s st).1.has_RHi = s.has_RHi ∧
    (massage_bundle s st).1.has_RHo = s.has_RHo ∧
    (massage_bundle s st).1.has_CO2 = s.has_CO2 := by
  refine ⟨?_, ?_, ?_, ?_, ?_⟩ <;>
    simp [massage_bundle, apply_ite SensorBundle.has_Tin,
      apply_ite SensorBundle.has_Tout, apply_ite SensorBundle.has_RHi,
      apply_ite SensorBundle.has_RHo, apply_ite SensorBundle.has_CO2]

/-- A non-cooling action yields the zero thermal determination. -/
theorem determine_thermal_of_not_cooling (P : PowModel) (input : ControlInput)
    (b : SensorBundle) (ha : ¬input.action = ClimateAction.COOLING) :
    determine_thermal P input b = {} := by
  simp [determine_thermal, ha]

/-- A missing indoor temperature yields the zero thermal determination. -/
theorem determine_thermal_of_no_tin (P : PowModel) (input : ControlInput)
    (b : SensorBundle) (ht : b.has_Tin = false) :
    determine_thermal P input b = {} := by
  simp [determine_thermal, ht]

/-- A non-finite setpoint yields the zero thermal determination. -/
theorem determine_thermal_of_nonfinite (P : PowModel) (input : ControlInput)
    (b : SensorBundle) (hf : input.target_temperature.finite = false) :
    determine_thermal P input b = {} := by
  simp [determine_thermal, hf]

/-- C8: each non-finite input is contained on its own.  A non-finite setpoint
alone makes the thermal controller return the inactive/zero Determination on
any bundle (whatever the ambient reading); a non-finite indoor ambient
temperature reading alone is rejected by `sensor_valid` at read time, so the
thermal controller of that tick's conditioned bundle is zero whatever the
setpoint; and in every case the tick's combined output still carries a
well-defined fan speed in `[0, 10]`.
(The accompanying `ESP_LOGW` diagnostic is I/O and outside the embedding.) -/
theorem nonfinite_inputs_are_contained (P : PowModel) (gco2 grh : Bool)
    (env : Sensors) (input : ControlInput) (st : GovernorState)
    (b : SensorBundle) :
    (input.target_temperature.finite = false →
      determine_thermal P input b = {}) ∧
    (∀ f : FloatC, env.indoor_ambient_temperature = some f → f.finite = false →
      determine_thermal P input (massage_bundle (read_sensors env) st).1 = {}) ∧
    0 ≤ (update P gco2 grh env input st).1.fan_speed ∧
    (update P gco2 grh env input st).1.fan_speed ≤ 10 := by
  have hb := update_fan_bounds P gco2 grh env input st
  refine ⟨fun hset => determine_thermal_of_nonfinite P input b hset,
    fun f hsen hnf => ?_, hb.1, hb.2.1⟩
  apply determine_thermal_of_no_tin
  have hm := (massage_bundle_has (read_sensors env) st).1
  rw [hm]
  simp [read_sensors, sensor_valid, hsen, hnf]

/-- C8 witness: with a finite setpoint of 20 °C but the indoor temperature
sensor reporting a non-finite state, the thermal determination of the tick's
conditioned bundle is zero; with a non-finite setpoint it is zero on any
bundle; and the tick's fan speed is in range. -/
theorem nonfinite_inputs_are_contained_witness :
    determine_thermal powDemo
      { ambient_temperature := ⟨true, 25⟩, target_temperature := ⟨true, 20⟩,
        action := ClimateAction.COOLING, fan_mode := ClimateFanMode.AUTO,
        lid_mode := LidMode.AUTO }
      (massage_bundle (read_sensors
        { indoor_ambient_temperature := some ⟨false, 0⟩ }) {}).1 = {} ∧
    determine_thermal powDemo
      { ambient_temperature := ⟨true, 25⟩, target_temperature := ⟨false, 0⟩,
        action := ClimateAction.COOLING, fan_mode := ClimateFanMode.AUTO,
        lid_mode := LidMode.AUTO }
      { has_Tin := true, Tin := 25, Tin_f := 25 } = {} ∧
    0 ≤ (update powDemo true true { indoor_ambient_temperature := some ⟨false, 0⟩ }
      { ambient_temperature := ⟨true, 25⟩, target_temperature := ⟨true, 20⟩,
        action := ClimateAction.COOLING, fan_mode := ClimateFanMode.AUTO,
        lid_mode := LidMode.AUTO } {}).1.fan_speed ∧
    (update powDemo true true { indoor_ambient_temperature := some ⟨false, 0⟩ }
      { ambient_temperature := ⟨true, 25⟩, target_temperature := ⟨true, 20⟩,
        action := ClimateAction.COOLING, fan_mode := ClimateFanMode.AUTO,
        lid_mode := LidMode.AUTO } {}).1.fan_speed ≤ 10 :=
  ⟨(nonfinite_inputs_are_contained powDemo true true
      { indoor_ambient_temperature := some ⟨false, 0⟩ }
      { ambient_temperature := ⟨true, 25⟩, target_temperature := ⟨true, 20⟩,
        action := ClimateAction.COOLING, fan_mode := ClimateFanMode.AUTO,
        lid_mode := LidMode.AUTO } {} {}).2.1 ⟨false, 0⟩ rfl rfl,
   (nonfinite_inputs_are_contained powDemo true true
      { indoor_ambient_temperature := some ⟨false, 0⟩ }
      { ambient_temperature := ⟨true, 25⟩, target_temperature := ⟨false, 0⟩,
        action := ClimateAction.COOLING, fan_mode := ClimateFanMode.AUTO,
        lid_mode := LidMode.AUTO } {}
      { has_Tin := true, Tin := 25, Tin_f := 25 }).1 rfl,
   (nonfinite_inputs_are_contained powDemo true true
      { indoor_ambient_temperature := some ⟨false, 0⟩ }
      { ambient_temperature := ⟨true, 25⟩, target_temperature := ⟨true, 20⟩,
        action := ClimateAction.COOLING, fan_mode := ClimateFanMode.AUTO,
        lid_mode := LidMode.AUTO } {} {}).2.2.1,
   (nonfinite_inputs_are_contained powDemo true true
      { indoor_ambient_temperature := some ⟨false, 0⟩ }
      { ambient_temperature := ⟨true, 25⟩, target_temperature := ⟨true, 20⟩,
        action := ClimateAction.COOLING, fan_mode := ClimateFanMode.AUTO,
        lid_mode := LidMode.AUTO } {} {}).2.2.2⟩

/-- C9 counterexample: the claim that the quiet-mode span is strictly wider
than the auto-mode span is false on this code — `kSpanQuietC` and
`kSpanAutoC` are both 5.0 °C, so the strict inequality fails. -/
theorem quiet_span_not_strictly_wider : ¬kSpanAutoC < kSpanQuietC := by
  norm_num [kSpanAutoC, kSpanQuietC]

/-- C9 (amended): the temperature-error span used in quiet mode equals the
span used in auto mode (both 5.0 °C); quiet mode nonetheless ramps no more
steeply than auto mode for the same error, because its gamma (2.5) strictly
exceeds auto's (1.0) and `drive^γ` is antitone in `γ` on `drive ∈ [0,1]`. -/
theorem quiet_span_equal_and_gamma_gentler (P : PowModel)
    (input : ControlInput) (b : SensorBundle)
    (hq : input.fan_mode = ClimateFanMode.QUIET) :
    kSpanQuietC = kSpanAutoC ∧ kGammaAuto < kGammaQuiet ∧
    (determine_thermal P input b).level ≤
      (determine_thermal P { input with fan_mode := ClimateFanMode.AUTO } b).level := by
  refine ⟨by norm_num [kSpanQuietC, kSpanAutoC],
    by norm_num [kGammaAuto, kGammaQuiet], ?_⟩
  by_cases ha : input.action = ClimateAction.COOLING
  · by_cases ht : b.has_Tin = true
    · by_cases hf : input.target_temperature.finite = true
      · rw [determine_thermal_eq P input b ha ht hf,
          determine_thermal_eq P { input with fan_mode := ClimateFanMode.AUTO } b
            ha ht hf]
        have hspan : kSpanQuietC = kSpanAutoC := by
          norm_num [kSpanQuietC, kSpanAutoC]
        simp only [hq, hspan]
        simp
        apply Int.ceil_le_ceil
        apply mul_le_mul_of_nonneg_left
        · exact P.rpow_anti _ kGammaAuto kGammaQuiet (clampf_nonneg _)
            (clampf_le_one _) (by norm_num [kGammaAuto])
            (by norm_num [kGammaAuto, kGammaQuiet])
        · norm_num [kMaxLevel]
      · rw [determine_thermal_of_nonfinite P input b (by simpa using hf),
          determine_thermal_of_nonfinite P
            { input with fan_mode := ClimateFanMode.AUTO } b (by simpa using hf)]
    · rw [determine_thermal_of_no_tin P input b (by simpa using ht),
        determine_thermal_of_no_tin P
          { input with fan_mode := ClimateFanMode.AUTO } b (by simpa using ht)]
  · rw [determine_thermal_of_not_cooling P input b ha,
      determine_thermal_of_not_cooling P
        { input with fan_mode := ClimateFanMode.AUTO } b ha]

/-- C9 witness: a concrete quiet-mode input — the spans are equal, the quiet
gamma is larger, and the quiet level does not exceed the auto level. -/
theorem quiet_span_equal_and_gamma_gentler_witness :
    kSpanQuietC = kSpanAutoC ∧ kGammaAuto < kGammaQuiet ∧
    (determine_thermal powDemo
      { ambient_temperature := ⟨true, 28⟩, target_temperature := ⟨true, 24⟩,
        action := ClimateAction.COOLING, fan_mode := ClimateFanMode.QUIET,
        lid_mode := LidMode.AUTO }
      { has_Tin := true, Tin := 28, Tin_f := 28 }).level ≤
      (determine_thermal powDemo
        { ambient_temperature := ⟨true, 28⟩, target_temperature := ⟨true, 24⟩,
          action := ClimateAction.COOLING, fan_mode := ClimateFanMode.AUTO,
          lid_mode := LidMode.AUTO }
        { has_Tin := true, Tin := 28, Tin_f := 28 }).level :=
  quiet_span_equal_and_gamma_gentler powDemo
    { ambient_temperature := ⟨true, 28⟩, target_temperature := ⟨true, 24⟩,
      action := ClimateAction.COOLING, fan_mode := ClimateFanMode.QUIET,
      lid_mode := LidMode.AUTO }
    { has_Tin := true, Tin := 28, Tin_f := 28 } rfl

/-- The state returned by one RH tick: the latch is stepped by
`rh_latch_next` when the controller runs, and everything else is untouched. -/
theorem determine_rh_snd (P : PowModel) (g : Bool) (b : SensorBundle)
    (st : GovernorState) :
    (determine_rh P g b st).2 =
      (if ¬(kEnableRHControl ∧ g ∧ b.has_RHi ∧ b.has_RHo) then st
       else { st with rh_active :=
          (rh_latch_next st.rh_active
            (decide (b.RHi_f + kRHOutsideMarginPct ≤ b.RHo)) b.RHi_f) }) := by
  unfold determine_rh
  split_ifs with h1 <;>
    first
      | rfl
      | (cases hl : rh_latch_next st.rh_active
          (decide (b.RHi_f + kRHOutsideMarginPct ≤ b.RHo)) b.RHi_f <;> simp [hl])

/-- A CO2 tick only ever touches the CO2 latch: the LPF seed flags survive. -/
theorem determine_co2_keeps_lpf_Tin (P : PowModel) (g : Bool)
    (b : SensorBundle) (st : GovernorState) :
    ((determine_co2 P g b st).2).lpf_init_Tin = st.lpf_init_Tin := by
  rw [determine_co2_snd]
  split_ifs <;> rfl

/-- A CO2 tick leaves the RH LPF seed flag unchanged. -/
theorem determine_co2_keeps_lpf_RHi (P : PowModel) (g : Bool)
    (b : SensorBundle) (st : GovernorState) :
    ((determine_co2 P g b st).2).lpf_init_RHi = st.lpf_init_RHi := by
  rw [determine_co2_snd]
  split_ifs <;> rfl

/-- A CO2 tick leaves the CO2 LPF seed flag unchanged. -/
theorem determine_co2_keeps_lpf_CO2 (P : PowModel) (g : Bool)
    (b : SensorBundle) (st : GovernorState) :
    ((determine_co2 P g b st).2).lpf_init_CO2 = st.lpf_init_CO2 := by
  rw [determine_co2_snd]
  split_ifs <;> rfl

/-- An RH tick only ever touches the RH latch: the Tin LPF seed survives. -/
theorem determine_rh_keeps_lpf_Tin (P : PowModel) (g : Bool)
    (b : SensorBundle) (st : GovernorState) :
    ((determine_rh P g b st).2).lpf_init_Tin = st.lpf_init_Tin := by
  rw [determine_rh_snd]
  split_ifs <;> rfl

/-- An RH tick leaves the RHi LPF seed flag unchanged. -/
theorem determine_rh_keeps_lpf_RHi (P : PowModel) (g : Bool)
    (b : SensorBundle) (st : GovernorState) :
    ((determine_rh P g b st).2).lpf_init_RHi = st.lpf_init_RHi := by
  rw [determine_rh_snd]
  split_ifs <;> rfl

/-- An RH tick leaves the CO2 LPF seed flag unchanged. -/
theorem determine_rh_keeps_lpf_CO2 (P : PowModel) (g : Bool)
    (b : SensorBundle) (st : GovernorState) :
    ((determine_rh P g b st).2).lpf_init_CO2 = st.lpf_init_CO2 := by
  rw [determine_rh_snd]
  split_ifs <;> rfl

/-- An RH tick leaves the CO2 latch unchanged. -/
theorem determine_rh_keeps_co2_active (P : PowModel) (g : Bool)
    (b : SensorBundle) (st : GovernorState) :
    ((determine_rh P g b st).2).co2_active = st.co2_active := by
  rw [determine_rh_snd]
  split_ifs <;> rfl

/-- The conditioner seeds the Tin filter on any tick with a valid reading. -/
theorem massage_bundle_seeds_Tin (s : SensorSample) (st : GovernorState)
    (h : s.has_Tin = true) :
    ((massage_bundle s st).2).lpf_init_Tin = true := by
  simp only [massage_bundle, h]
  simp [apply_ite GovernorState.lpf_init_Tin]

/-- The conditioner seeds the RHi filter on any tick with a valid reading. -/
theorem massage_bundle_seeds_RHi (s : SensorSample) (st : GovernorState)
    (h : s.has_RHi = true) :
    ((massage_bundle s st).2).lpf_init_RHi = true := by
  simp only [massage_bundle, h]
  simp [apply_ite GovernorState.lpf_init_RHi]
  try (split_ifs <;> simp_all)

/-- The conditioner seeds the CO2 filter on any tick with a valid reading. -/
theorem massage_bundle_seeds_CO2 (s : SensorSample) (st : GovernorState)
    (h : s.has_CO2 = true) :
    ((massage_bundle s st).2).lpf_init_CO2 = true := by
  simp only [massage_bundle, h]
  simp [apply_ite GovernorState.lpf_init_CO2]
  try (split_ifs <;> simp_all)

/-- C10: every `update` tick runs the conditioner and the CO2/RH hysteresis
transitions regardless of the ControlInput — the returned GovernorState does
not depend on the input at all; every valid indoor reading seeds its low-pass
filter memory; and concretely, a tick with fan mode off, no cooling demand
and the lid forced closed still flips the CO2 latch to active on a filtered
CO2 of 800 ≥ 775 while returning an all-off ControlOutput. -/
theorem update_state_frame (P : PowModel) (gco2 grh : Bool) (env : Sensors)
    (input : ControlInput) (st : GovernorState) :
    (∀ input2 : ControlInput,
      (update P gco2 grh env input st).2 = (update P gco2 grh env input2 st).2) ∧
    (sensor_valid env.indoor_ambient_temperature = true →
      ((update P gco2 grh env input st).2).lpf_init_Tin = true) ∧
    (sensor_valid env.indoor_relative_humidity = true →
      ((update P gco2 grh env input st).2).lpf_init_RHi = true) ∧
    (sensor_valid env.indoor_co2 = true →
      ((update P gco2 grh env input st).2).lpf_init_CO2 = true) ∧
    (({} : GovernorState).co2_active = false ∧
     (update powDemo true true co2HotSensors allOffInput {}).1.fan_speed = 0 ∧
     (update powDemo true true co2HotSensors allOffInput {}).1.lid_open = false ∧
     ((update powDemo true true co2HotSensors allOffInput {}).2).co2_active = true) := by
  have hb1 : (massage_bundle (read_sensors co2HotSensors) {}).1 =
      { has_CO2 := true, CO2 := 800, CO2_f := 800 } := by
    norm_num [massage_bundle, read_sensors, co2HotSensors, sensor_valid,
      sensor_state, clampf, lpf_step, kAlphaCO2LPF]
  have hb2 : (massage_bundle (read_sensors co2HotSensors) {}).2 =
      { lpf_init_CO2 := true, CO2_prev := 800 } := by
    norm_num [massage_bundle, read_sensors, co2HotSensors, sensor_valid,
      sensor_state, clampf, lpf_step, kAlphaCO2LPF]
  refine ⟨fun input2 => rfl, ?_, ?_, ?_, rfl, ?_, ?_, ?_⟩
  · intro h
    simp only [update, determine_rh_keeps_lpf_Tin, determine_co2_keeps_lpf_Tin]
    exact massage_bundle_seeds_Tin _ _ (by simp [read_sensors, h])
  · intro h
    simp only [update, determine_rh_keeps_lpf_RHi, determine_co2_keeps_lpf_RHi]
    exact massage_bundle_seeds_RHi _ _ (by simp [read_sensors, h])
  · intro h
    simp only [update, determine_rh_keeps_lpf_CO2, determine_co2_keeps_lpf_CO2]
    exact massage_bundle_seeds_CO2 _ _ (by simp [read_sensors, h])
  · exact (update_fan_bounds powDemo true true co2HotSensors allOffInput {}).2.2.2 rfl
  · simp only [update]
    rw [apply_overrides_lid]
    simp [allOffInput]
  · simp only [update, determine_rh_keeps_co2_active]
    rw [hb1, hb2, determine_co2_snd]
    norm_num [kEnableCO2Control, co2_latch_next, kCO2TargetPPM, kCO2DeadbandPPM]

end Governor
end Minuet
